import Mathlib

/-!
Shallow embedding of the tjaele fan-control daemon (Rust) and proofs about it.

The embedding covers:
* the fan-curve compiler `TjaeleControlConfig::precompute_fan_curve` and its
  validator `validate_fan_curve` (src/gpu_manager/fan_curve.rs);
* the hysteresis-gated control step `GpuManager::set_duty_with_curve`
  (src/gpu_manager/fan_curve.rs) and the control-loop state update in
  `fan_control` (tjaeled/src/main.rs);
* config loading `TjaeleControlConfig::new_from_file` together with the
  serde deserialization of the `fan_curve` list into a hash map
  (tjaeled/src/gpu_manager.rs);
* the shutdown restore loop `impl Drop for GpuManager`
  (tjaeled/src/gpu_manager.rs);
* the HTTP handler `handle_http_request` and the error-chain rendering
  (tjaeled/src/main.rs), with `anyhow::Error` modelled as a nonempty chain
  of context layers, outermost layer first exactly as `Error::chain()`
  iterates;
* the lock discipline of the device-facing operations, as action traces.

Machine integers are modelled as `Nat` with explicit wrap-around (`% 256`)
where u8 overflow matters; u32 saturating arithmetic is modelled with
truncated subtraction and an explicit cap.  The `FxHashMap<u8, u8>` is
modelled as an association list with distinct keys queried through
`mapLookup` (first matching key wins, as in `List.lookup`).  The f64 slope/intercept arithmetic of the interpolator is
modelled exactly over the rationals; `interpDuty` computes the resulting
ceiling with integer arithmetic and `interpDuty_eq_ceil` proves it equal to
`⌈m * temp + b⌉` with `m` and `b` written exactly as in the source.
-/

/-- One `FanCurvePoint` of fan_curve.rs: a (temperature, duty) anchor.
Both fields are `u8` in the source; bounds appear as hypotheses where they
matter. -/
structure FanCurvePoint where
  temp : Nat
  duty : Nat
deriving DecidableEq, Repr

/-- The `FxHashMap<u8, u8>` holding the fan curve, modelled as an
association list with pairwise-distinct keys, queried with `mapLookup`. -/
abbrev FanCurveMap := List (Nat × Nat)

/-- `HashMap` lookup on the association-list model: the first entry with
the wanted key wins (entries are unique whenever the map invariant holds). -/
def mapLookup : FanCurveMap → Nat → Option Nat
  | [], _ => none
  | (k, v) :: rest, key => if key = k then some v else mapLookup rest key

/-- The `try_insert` helper of fan_curve.rs (copied there from std): insert
`(key, value)` if the key is absent, otherwise fail with `OccupiedError`. -/
def tryInsert (m : FanCurveMap) (key value : Nat) : Except String FanCurveMap :=
  match mapLookup m key with
  | some _ => .error "Found curve point which should not yet be present"
  | none => .ok (m ++ [(key, value)])

/-- A Rust half-open range `a..b` as the list `[a, a+1, ..., b-1]`. -/
def rangeCO (a b : Nat) : List Nat :=
  (List.range (b - a)).map (a + ·)

/-- A Rust inclusive range `a..=b` as the list `[a, a+1, ..., b]`. -/
def rangeCC (a b : Nat) : List Nat :=
  rangeCO a (b + 1)

/-- Interior duty of fan_curve.rs line 95: `(m * f64::from(temp) + b).ceil() as u8`
with `m = (hi.duty - lo.duty) / (hi.temp - lo.temp)` and
`b = lo.duty - m * lo.temp`.  The f64 arithmetic is modelled exactly: over
the rationals `m * temp + b` equals
`(lo.duty * (hi.temp - lo.temp) + (hi.duty - lo.duty) * (temp - lo.temp)) / (hi.temp - lo.temp)`,
and the ceiling of that nonnegative fraction is computed here with natural
ceiling division; `interpDuty_eq_ceil` below proves the two forms equal. -/
def interpDuty (lo hi : FanCurvePoint) (temp : Nat) : Nat :=
  (lo.duty * (hi.temp - lo.temp) + (hi.duty - lo.duty) * (temp - lo.temp)
      + ((hi.temp - lo.temp) - 1)) / (hi.temp - lo.temp)

/-- The `anchor_points.sort_by_key(|pt| pt.temp)` step of
`precompute_fan_curve`, applied to the collected map entries. -/
def sortByTemp (l : List FanCurvePoint) : List FanCurvePoint :=
  List.insertionSort (fun a b => a.temp ≤ b.temp) l

/-- The per-pair body of the interpolation loop of `precompute_fan_curve`
(fan_curve.rs lines 84-99): `ensure!` that duty does not decrease, then
insert the interpolated duty for every interior temperature
`(lo.temp + 1)..hi.temp`. -/
def drawSegment (m : FanCurveMap) (pr : FanCurvePoint × FanCurvePoint) :
    Except String FanCurveMap :=
  if pr.1.duty ≤ pr.2.duty then
    (rangeCO (pr.1.temp + 1) pr.2.temp).foldlM
      (fun acc t => tryInsert acc t (interpDuty pr.1 pr.2 t)) m
  else .error "Fan duty must not decrease with temperature"

/-- The post-build `validate_fan_curve` (fan_curve.rs lines 114-127): sort
the completed table by temperature and re-check that duty never decreases
and never exceeds 100 across consecutive entries. -/
def validate_fan_curve (fanCurve : FanCurveMap) : Except String Unit :=
  let curvePoints := sortByTemp (fanCurve.map fun p => ⟨p.1, p.2⟩)
  (curvePoints.zip curvePoints.tail).foldlM
    (fun _ pr =>
      if ¬ pr.1.duty ≤ pr.2.duty then
        .error "Generated fun curve is not valid (direction)"
      else if ¬ pr.1.duty ≤ 100 then
        .error "Generated fun curve is not valid (fan duty)"
      else if ¬ pr.2.duty ≤ 100 then
        .error "Generated fun curve is not valid (fan duty)"
      else .ok ())
    ()

/-- `TjaeleControlConfig::precompute_fan_curve` (fan_curve.rs lines 72-112).
Sorts the anchors by temperature, draws a flat line from 0 up to the first
anchor, linearly interpolates between each consecutive anchor pair
(failing if duty decreases), draws a flat line from the last anchor up to
`u8::MAX`, and finally runs `validate_fan_curve`.  The `[0]` index on an
empty anchor list panics in Rust; that panic is modelled as an error.  The
start of the tail loop is `last_point.temp + 1` computed in `u8`; for a
last anchor at 255 this addition overflows -- release builds wrap it to 0
(modelled with `% 256`), debug builds panic outright. -/
def precompute_fan_curve (fanCurve : FanCurveMap) : Except String FanCurveMap :=
  let anchorPoints := sortByTemp (fanCurve.map fun p => ⟨p.1, p.2⟩)
  match anchorPoints with
  | [] => .error "panic: index out of bounds (anchor_points[0] on an empty curve)"
  | a0 :: _ => do
    let m1 ← (rangeCO 0 a0.temp).foldlM (fun acc t => tryInsert acc t a0.duty) fanCurve
    let m2 ← (anchorPoints.zip anchorPoints.tail).foldlM drawSegment m1
    match anchorPoints.getLast? with
    | none => .error "Last curve point not found"
    | some lastPoint => do
      let m3 ← (rangeCC ((lastPoint.temp + 1) % 256) 255).foldlM
        (fun acc t => tryInsert acc t lastPoint.duty) m2
      let _ ← validate_fan_curve m3
      .ok m3

/-- A `HashMap::insert` as performed by serde when deserializing the
`fan_curve` list: replace the value if the key is present, append the new
entry otherwise. -/
def mapInsert (m : FanCurveMap) (key value : Nat) : FanCurveMap :=
  match mapLookup m key with
  | some _ => m.map fun q => if q.1 = key then (key, value) else q
  | none => m ++ [(key, value)]

/-- The serde_as `Vec<(_, _)>` deserialization of the configured
`fan_curve` (tjaeled/src/gpu_manager.rs line 95) into `FxHashMap<u8, u8>`:
the listed pairs are inserted in order, a later pair with an already-seen
temperature silently replacing the earlier duty. -/
def buildFanCurveMap (pairs : List (Nat × Nat)) : FanCurveMap :=
  pairs.foldl (fun m p => mapInsert m p.1 p.2) []

/-- The validated `TjaeleControlConfig` (tjaeled/src/gpu_manager.rs lines
89-97).  `response_time` is a `Duration` parsed from fractional seconds;
its f64 value is modelled exactly as a rational.  `hysteresis` is `u16`,
`fan_curve` the deserialized hash map. -/
structure TjaeleControlConfig where
  response_time : ℚ
  hysteresis : Nat
  fan_curve : FanCurveMap
deriving Repr

/-- `TjaeleControlConfig::new_from_file` (tjaeled/src/gpu_manager.rs lines
100-120) after the TOML parse: the parsed values arrive as arguments, the
`fan_curve` list is already deserialized into a map by serde, and the four
`ensure!` checks run in source order. -/
def new_from_file (parsedResponseTime : ℚ) (parsedHysteresis : Nat)
    (parsedFanCurvePairs : List (Nat × Nat)) : Except String TjaeleControlConfig :=
  let fanCurve := buildFanCurveMap parsedFanCurvePairs
  if ¬ (0 < parsedHysteresis ∧ parsedHysteresis ≤ 5) then
    .error "Hysteresis must be between 1C and 5C"
  else if ¬ (1/4 ≤ parsedResponseTime) then
    .error "Response time must be at least than 0.25 seconds"
  else if ¬ (fanCurve.all fun p => p.2 ≤ 100) then
    .error "Fan duty cannot be higher than 100%"
  else if ¬ 3 ≤ fanCurve.length then
    .error "Fan curve must have at least 3 points"
  else .ok ⟨parsedResponseTime, parsedHysteresis, fanCurve⟩

/-- The config pipeline of `GpuManager::init` (tjaeled/src/gpu_manager.rs
line 34): `TjaeleControlConfig::new_from_file(config_path)?.precompute_fan_curve()?`. -/
def load_control_config (parsedResponseTime : ℚ) (parsedHysteresis : Nat)
    (parsedFanCurvePairs : List (Nat × Nat)) : Except String TjaeleControlConfig := do
  let cfg ← new_from_file parsedResponseTime parsedHysteresis parsedFanCurvePairs
  let curve ← precompute_fan_curve cfg.fan_curve
  .ok { cfg with fan_curve := curve }

/-- Largest `u32` value, the saturation bound of `saturating_add`. -/
def U32_MAX : Nat := 2 ^ 32 - 1

/-- `u32::saturating_sub`, saturating at the lower bound of the domain. -/
def saturatingSub (a b : Nat) : Nat := a - b

/-- `u32::saturating_add`, saturating at `u32::MAX`. -/
def saturatingAdd (a b : Nat) : Nat := min (a + b) U32_MAX

/-- The per-call device behaviour visible to one control step: the result
of the `device.temperature(..)` read and, per fan index, whether
`device.set_fan_speed(idx, duty)` succeeds. -/
structure StepDevice where
  readTemp : Except String Nat
  setFanOk : Nat → Bool

/-- The `for fan_idx in 0..num_fans { device.set_fan_speed(..)? }` loop of
`set_duty_with_curve` (fan_curve.rs lines 47-51), over an explicit index
list.  Returns the result of the loop together with the log of fan-speed
commands the device actually executed, in issue order; the `?` aborts the
loop at the first failing call, so later indices are never commanded and
nothing is rolled back. -/
def set_fan_speeds (dev : StepDevice) (duty : Nat) :
    List Nat → Except String Unit × List (Nat × Nat)
  | [] => (.ok (), [])
  | i :: rest =>
    if dev.setFanOk i then
      let (r, log) := set_fan_speeds dev duty rest
      (r, (i, duty) :: log)
    else (.error "Failed to set fan speed", [])

/-- `GpuManager::set_duty_with_curve` (fan_curve.rs lines 22-56): read the
temperature, return the previous temperature unchanged when the new one
lies in the inclusive hysteresis band, reject temperatures above 255,
otherwise look the duty up in the precomputed curve, sanity-check it and
command it to every fan, returning the newly observed temperature.  The
result is paired with the log of executed fan-speed commands. -/
def set_duty_with_curve (hysteresis : Nat) (fanCurve : FanCurveMap)
    (numFans : Nat) (dev : StepDevice) (previousTemp : Nat) :
    Except String Nat × List (Nat × Nat) :=
  match dev.readTemp with
  | .error _ => (.error "Failed to read GPU temperature", [])
  | .ok newTemp =>
    if saturatingSub previousTemp hysteresis ≤ newTemp
        ∧ newTemp ≤ saturatingAdd previousTemp hysteresis then
      (.ok previousTemp, [])
    else if 255 < newTemp then
      (.error "Your device somehow is warmer than 255C", [])
    else
      match mapLookup fanCurve newTemp with
      | none => (.error "Missing fan curve point - this should not happen", [])
      | some targetDuty =>
        if ¬ targetDuty ≤ 100 then
          (.error "Fan duty failed sanity check - this should not happen", [])
        else
          let (r, log) := set_fan_speeds dev targetDuty (List.range numFans)
          (r.map fun _ => newTemp, log)

/-- State update of one iteration of the `fan_control` loop
(tjaeled/src/main.rs lines 164-170): on success `gpu_temp` becomes the
returned temperature, on error it is left unchanged and the cancellation
token is cancelled (second component). -/
def fan_control_step (gpuTemp : Nat) (fanControlResult : Except String Nat) :
    Nat × Bool :=
  match fanControlResult with
  | .ok t => (t, false)
  | .error _ => (gpuTemp, true)

/-- Outcome of `impl Drop for GpuManager`.  The Rust `Drop::drop` returns
nothing and cannot surface a recoverable error; the only non-normal exit
is the deliberate `.expect(..)` panic, so the outcome is either the full
ordered list of fan indices whose policy-restore command succeeded, or a
panic carrying the successfully restored prefix. -/
inductive DropOutcome where
  | ok (restored : List Nat)
  | panicked (restored : List Nat) (msg : String)
deriving DecidableEq, Repr

/-- The restore loop of `impl Drop for GpuManager`
(tjaeled/src/gpu_manager.rs lines 70-75), over an explicit index list:
`device.set_default_fan_speed(fan_idx).expect(..)` for each index, where a
failing call panics immediately. -/
def restore_auto_policy (setDefaultOk : Nat → Bool) : List Nat → DropOutcome
  | [] => .ok []
  | i :: rest =>
    if setDefaultOk i then
      match restore_auto_policy setDefaultOk rest with
      | .ok cs => .ok (i :: cs)
      | .panicked cs m => .panicked (i :: cs) m
    else
      .panicked [] "Failed to set auto fan control policy upon nvmlcontrol shutdown"

/-- `impl Drop for GpuManager` (tjaeled/src/gpu_manager.rs lines 66-78):
`for fan_idx in 0..self.persistent_params.num_fans` restore the automatic
policy, panicking on the first failure. -/
def gpu_manager_drop (numFans : Nat) (setDefaultOk : Nat → Bool) : DropOutcome :=
  restore_auto_policy setDefaultOk (List.range numFans)

/-- An `anyhow::Error`: a base error possibly wrapped by `.context(..)`
layers, each layer adding one outer contextual sentence. -/
inductive AnyhowError where
  | base (msg : String)
  | context (msg : String) (source : AnyhowError)
deriving DecidableEq, Repr

/-- `anyhow::Error::chain()`: the own message of the error first (the outermost
layer), followed by the chain of its sources down to the innermost base
error. -/
def AnyhowError.chain : AnyhowError → List String
  | .base m => [m]
  | .context m e => m :: e.chain

/-- The innermost cause of an `anyhow::Error`: the base error at the
bottom of the context stack. -/
def innermostCause : AnyhowError → String
  | .base m => m
  | .context _ e => innermostCause e

/-- The outermost message of an `anyhow::Error`: the most recently added
context layer (or the base message when no context was added). -/
def outermostMsg : AnyhowError → String
  | .base m => m
  | .context m _ => m

/-- The 500-body construction of `handle_http_request`
(tjaeled/src/main.rs lines 140-143): start from `"Error chain:\n"` and
push one numbered line per enumerated element of `err.chain()`. -/
def error_chain_body (err : AnyhowError) : String :=
  err.chain.enum.foldl
    (fun acc p => acc ++ ("[" ++ toString p.1 ++ "]: " ++ p.2 ++ "\n"))
    "Error chain:\n"

/-- `handle_http_request` (tjaeled/src/main.rs lines 116-149).  Anything
but `GET /gpustate` gets 404 with an empty body.  Otherwise the snapshot
read runs; `readState` stands for the flattened
`spawn_blocking(read_state)` + JSON-serialization result, carrying either
the serialized snapshot body or the `anyhow` error.  Success yields 200
with the JSON body, failure yields 500 with the numbered error chain. -/
def handle_http_request (method path : String)
    (readState : Except AnyhowError String) : Nat × String :=
  if ¬ (method = "GET" ∧ path = "/gpustate") then (404, "")
  else
    match readState with
    | .ok state => (200, state)
    | .error err => (500, error_chain_body err)

/-- What the `unix_socket_server` accept loop (tjaeled/src/main.rs lines
83-99) can do with one `accept()` outcome.  `stopServing` is the reaction
the loop never takes: both match arms continue the `loop`. -/
inductive ServerReaction where
  | spawnHandler
  | logErrorAndContinue
  | stopServing
deriving DecidableEq, Repr

/-- One iteration of the `unix_socket_server` accept loop: a successful
accept spawns a connection handler, a failed accept logs the error; the
loop body contains no `break` or `return`. -/
def unix_socket_server_step (accepted : Except String Unit) : ServerReaction :=
  match accepted with
  | .ok _ => .spawnHandler
  | .error _ => .logErrorAndContinue

/-- An atomic step of a device-facing operation, for checking the lock
discipline: acquiring/releasing the `nvml_handle` mutex of the session, or one
native call against the device connection. -/
inductive DevAction where
  | lockAcquire
  | lockRelease
  | deviceCall (name : String)
deriving DecidableEq, Repr

/-- Whether every native device call in a trace happens while the lock is
held (lock depth positive). -/
def callsLockedFrom (depth : Nat) : List DevAction → Bool
  | [] => true
  | .lockAcquire :: rest => callsLockedFrom (depth + 1) rest
  | .lockRelease :: rest => callsLockedFrom (depth - 1) rest
  | .deviceCall _ :: rest => decide (0 < depth) && callsLockedFrom depth rest

/-- Whether a device-facing operation is serialized through the session
mutual-exclusion boundary: all its device calls run under the lock. -/
def allCallsLocked (trace : List DevAction) : Bool :=
  callsLockedFrom 0 trace

/-- Action trace of `GpuManager::read_state` in the tjaeled revision
(tjaeled/src/gpu_manager.rs lines 53-59): the struct stores `NvmlHandle`
with no mutex, and `read_runtime_params` issues its native calls
directly. -/
def tjaeled_read_state_trace : List DevAction :=
  [.deviceCall "read_runtime_params"]

/-- Action trace of `GpuManager::read_state` in the locked revision
(src/gpu_manager.rs lines 50-58): `self.nvml_handle.lock().await`, the
runtime-parameter reads against the borrowed device, then the lock guard
drops. -/
def locked_read_state_trace : List DevAction :=
  [.lockAcquire, .deviceCall "RuntimeGpuParams::read_from_device", .lockRelease]

/-- The consecutive pairs of the temperature-sorted anchor list, exactly
as the interpolation loop of `precompute_fan_curve` visits them. -/
def sortedAnchorPairs (fanCurve : FanCurveMap) : List (FanCurvePoint × FanCurvePoint) :=
  let anchorPoints := sortByTemp (fanCurve.map fun p => ⟨p.1, p.2⟩)
  anchorPoints.zip anchorPoints.tail

/-- The duty of the last listed pair carrying a given temperature, if
any: the value a sequential hash-map insertion of the pairs leaves behind. -/
def lastDuty (pairs : List (Nat × Nat)) (t : Nat) : Option Nat :=
  (pairs.reverse.find? fun p => decide (p.1 = t)).map (·.2)

/-!  Helper lemmas. -/

/-- A monadic fold over `Except` fails whenever the list contains an
element on which the step function fails regardless of the accumulator. -/
theorem foldlM_except_error {α β : Type} (l : List α)
    (f : β → α → Except String β) (x : α) (hx : x ∈ l)
    (hbad : ∀ c, ∃ e, f c x = .error e) :
    ∀ b, ∃ e, l.foldlM f b = .error e := by
  induction l with
  | nil => cases hx
  | cons a as ih =>
    intro b
    rcases List.mem_cons.mp hx with rfl | hmem
    · obtain ⟨e, he⟩ := hbad b
      exact ⟨e, by rw [List.foldlM_cons, he]; rfl⟩
    · cases hfa : f b a with
      | error e => exact ⟨e, by rw [List.foldlM_cons, hfa]; rfl⟩
      | ok b' =>
        obtain ⟨e, he⟩ := ih hmem b'
        exact ⟨e, by rw [List.foldlM_cons, hfa]; exact he⟩

/-- When the device accepts every command in the index list, the fan loop
succeeds and commands each listed index once, in list order. -/
theorem set_fan_speeds_all_ok (dev : StepDevice) (duty : Nat) :
    ∀ idxs : List Nat, (∀ i ∈ idxs, dev.setFanOk i = true) →
      set_fan_speeds dev duty idxs = (.ok (), idxs.map fun i => (i, duty)) := by
  intro idxs
  induction idxs with
  | nil => intro _; rfl
  | cons i rest ih =>
    intro h
    have hi : dev.setFanOk i = true := h i (List.mem_cons_self i rest)
    have hrest := ih fun j hj => h j (List.mem_cons_of_mem i hj)
    simp [set_fan_speeds, hi, hrest]

/-- When every command before some failing index succeeds and that index
fails, the fan loop stops with an error having commanded exactly the
earlier indices, in order, with nothing rolled back. -/
theorem set_fan_speeds_first_fail (dev : StepDevice) (duty : Nat) :
    ∀ (pre : List Nat) (i : Nat) (post : List Nat),
      (∀ j ∈ pre, dev.setFanOk j = true) → dev.setFanOk i = false →
      set_fan_speeds dev duty (pre ++ i :: post)
        = (.error "Failed to set fan speed", pre.map fun j => (j, duty)) := by
  intro pre
  induction pre with
  | nil =>
    intro i post _ hi
    simp [set_fan_speeds, hi]
  | cons j rest ih =>
    intro i post h hi
    have hj : dev.setFanOk j = true := h j (List.mem_cons_self j rest)
    have hrest := ih i post (fun k hk => h k (List.mem_cons_of_mem j hk)) hi
    simp [set_fan_speeds, hj, hrest]

/-- The shutdown restore loop succeeds on an index list exactly when the
device accepts every restore command, and then reports the whole list. -/
theorem restore_auto_policy_all_ok (ok : Nat → Bool) :
    ∀ idxs : List Nat, (∀ i ∈ idxs, ok i = true) →
      restore_auto_policy ok idxs = .ok idxs := by
  intro idxs
  induction idxs with
  | nil => intro _; rfl
  | cons i rest ih =>
    intro h
    have hi : ok i = true := h i (List.mem_cons_self i rest)
    have hrest := ih fun j hj => h j (List.mem_cons_of_mem i hj)
    simp [restore_auto_policy, hi, hrest]

/-- If any restore command in the index list fails, the shutdown restore
loop panics rather than producing a normal outcome. -/
theorem restore_auto_policy_fail (ok : Nat → Bool) :
    ∀ idxs : List Nat, (∃ i ∈ idxs, ok i = false) →
      ∃ restored msg, restore_auto_policy ok idxs = .panicked restored msg := by
  intro idxs
  induction idxs with
  | nil => rintro ⟨i, hi, _⟩; cases hi
  | cons i rest ih =>
    rintro ⟨j, hj, hjf⟩
    by_cases hi : ok i = true
    · rcases List.mem_cons.mp hj with rfl | hmem
      · rw [hi] at hjf; cases hjf
      · obtain ⟨cs, m, hcs⟩ := ih ⟨j, hmem, hjf⟩
        exact ⟨i :: cs, m, by simp [restore_auto_policy, hi, hcs]⟩
    · refine ⟨[], "Failed to set auto fan control policy upon nvmlcontrol shutdown", ?_⟩
      simp [restore_auto_policy, Bool.eq_false_iff.mpr hi]

/-- Unfolding equation for `mapLookup` on a cons cell. -/
theorem mapLookup_cons (k v : Nat) (rest : FanCurveMap) (key : Nat) :
    mapLookup ((k, v) :: rest) key = if key = k then some v else mapLookup rest key := rfl

/-- Looking a temperature up in the serde map after replacing the value
stored at `key`: the key maps to the new value when it was present, every
other key is untouched. -/
theorem lookup_map_replace (key value t : Nat) :
    ∀ m : FanCurveMap,
      mapLookup (m.map fun q => if q.1 = key then (key, value) else q) t
        = if t = key then (if (mapLookup m key).isSome then some value else none)
          else mapLookup m t := by
  intro m
  induction m with
  | nil => by_cases ht : t = key <;> simp [mapLookup, ht]
  | cons q qs ih =>
    obtain ⟨k, v⟩ := q
    rw [List.map_cons]
    by_cases hk : k = key
    · have hhead : (if (k, v).1 = key then (key, value) else (k, v)) = ((key, value) : Nat × Nat) :=
        if_pos hk
      simp only [hhead, mapLookup_cons, ih]
      subst hk
      by_cases ht : t = k <;> simp [ht]
    · have hhead : (if (k, v).1 = key then (key, value) else (k, v)) = ((k, v) : Nat × Nat) :=
        if_neg hk
      simp only [hhead, mapLookup_cons, ih]
      have hkk : ¬ key = k := fun h => hk h.symm
      by_cases ht : t = k
      · have htk : ¬ t = key := fun h => hk (ht.symm.trans h)
        simp [ht, htk, hk]
      · simp [ht, hkk]

/-- Looking a temperature up in the serde map after appending a fresh
`(key, value)` entry. -/
theorem lookup_append_single (key value t : Nat) :
    ∀ m : FanCurveMap, mapLookup m key = none →
      mapLookup (m ++ [(key, value)]) t
        = if t = key then some value else mapLookup m t := by
  intro m
  induction m with
  | nil => intro _; by_cases ht : t = key <;> simp [mapLookup, ht]
  | cons q qs ih =>
    obtain ⟨k, v⟩ := q
    intro hk
    rw [mapLookup_cons] at hk
    by_cases hkk : key = k
    · simp [hkk] at hk
    · have hqs : mapLookup qs key = none := by simpa [hkk] using hk
      rw [List.cons_append, mapLookup_cons, mapLookup_cons]
      by_cases ht : t = k
      · have htk : ¬ t = key := fun h => hkk (ht.symm.trans h).symm
        have hkneq : ¬ k = key := fun h => hkk h.symm
        simp [ht, htk, hkneq]
      · simp [ht, ih hqs]

/-- Looking a temperature up after one serde map insert: the inserted key
now maps to the new value, every other key is untouched. -/
theorem lookup_mapInsert (m : FanCurveMap) (key value t : Nat) :
    mapLookup (mapInsert m key value) t
      = if t = key then some value else mapLookup m t := by
  unfold mapInsert
  cases hk : mapLookup m key with
  | none => exact lookup_append_single key value t m hk
  | some v0 => simp [lookup_map_replace, hk]

/-- Folding the serde inserts over any starting map: a temperature maps to
the duty of the last pair listing it, and otherwise to whatever the
starting map said. -/
theorem lookup_foldl_mapInsert (t : Nat) :
    ∀ (pairs : List (Nat × Nat)) (m : FanCurveMap),
      mapLookup (pairs.foldl (fun acc p => mapInsert acc p.1 p.2) m) t
        = match lastDuty pairs t with
          | some d => some d
          | none => mapLookup m t := by
  intro pairs
  induction pairs with
  | nil => intro m; rfl
  | cons p ps ih =>
    intro m
    rw [List.foldl_cons, ih]
    have hrev : (p :: ps).reverse = ps.reverse ++ [p] := by simp
    unfold lastDuty
    rw [hrev, List.find?_append]
    cases hf : ps.reverse.find? fun q => decide (q.1 = t) with
    | some q => simp
    | none =>
      simp only [Option.none_or, Option.map_none]
      rw [lookup_mapInsert]
      by_cases ht : t = p.1
      · simp [List.find?, ht]
      · have hpt : ¬ p.1 = t := fun h => ht h.symm
        simp [List.find?, hpt, ht]

/-- The serde deserialization of the fan-curve list: each temperature maps
to the duty of the last pair that listed it -- duplicates are silently
collapsed, never rejected. -/
theorem buildFanCurveMap_last_wins (pairs : List (Nat × Nat)) (t : Nat) :
    mapLookup (buildFanCurveMap pairs) t = lastDuty pairs t := by
  unfold buildFanCurveMap
  rw [lookup_foldl_mapInsert]
  cases lastDuty pairs t <;> rfl

/-- Pulling the accumulator out of the `push_str` fold that builds the
error-chain body. -/
theorem foldl_append_shift (g : Nat × String → String) :
    ∀ (l : List (Nat × String)) (acc : String),
      l.foldl (fun a p => a ++ g p) acc = acc ++ l.foldl (fun a p => a ++ g p) "" := by
  intro l
  induction l with
  | nil => intro acc; simp [String.append_empty]
  | cons p ps ih =>
    intro acc
    rw [List.foldl_cons, List.foldl_cons, ih (acc ++ g p), ih ("" ++ g p)]
    rw [String.append_assoc, String.empty_append]

/-- Every `anyhow` chain is nonempty and starts with the outermost
message. -/
theorem chain_cons_shape (err : AnyhowError) :
    ∃ tl, err.chain = outermostMsg err :: tl := by
  cases err with
  | base m => exact ⟨[], rfl⟩
  | context m e => exact ⟨e.chain, rfl⟩

/-- The head of an `anyhow` chain is the outermost message. -/
theorem chain_head (err : AnyhowError) :
    err.chain.head? = some (outermostMsg err) := by
  obtain ⟨tl, htl⟩ := chain_cons_shape err
  rw [htl]; rfl

/-- The last element of an `anyhow` chain is the innermost cause. -/
theorem chain_getLast (err : AnyhowError) :
    err.chain.getLast? = some (innermostCause err) := by
  induction err with
  | base m => rfl
  | context m e ih =>
    obtain ⟨tl, htl⟩ := chain_cons_shape e
    show (m :: e.chain).getLast? = some (innermostCause e)
    rw [htl, List.getLast?_cons_cons, ← htl, ih]

/-- The error body always starts with the header and the `[0]` line
carrying the outermost message. -/
theorem error_chain_body_head_line (err : AnyhowError) :
    ∃ rest, error_chain_body err
      = "Error chain:\n[0]: " ++ (outermostMsg err ++ rest) := by
  obtain ⟨tl, htl⟩ := chain_cons_shape err
  unfold error_chain_body
  rw [htl, List.enum_cons, List.foldl_cons,
    foldl_append_shift _ (List.enumFrom 1 tl)]
  refine ⟨"\n" ++ (List.enumFrom 1 tl).foldl
    (fun a p => a ++ ("[" ++ toString p.1 ++ "]: " ++ p.2 ++ "\n")) "", ?_⟩
  have h0 : ("[" ++ toString (0 : Nat)) ++ "]: " = "[0]: " := rfl
  have h1 : ("Error chain:\n" ++ "[0]: ") = "Error chain:\n[0]: " := rfl
  rw [show ("[" ++ toString (0, outermostMsg err).1 ++ "]: "
      ++ (0, outermostMsg err).2 ++ "\n")
      = "[0]: " ++ (outermostMsg err ++ "\n") from by
    rw [h0]; rw [String.append_assoc]]
  rw [← String.append_assoc, h1, String.append_assoc, String.append_assoc]


/-- The executable interpolator equals the source formula: `interpDuty`
computes exactly `ceil(m * temp + b)` with
`m = (hi.duty - lo.duty) / (hi.temp - lo.temp)` and
`b = lo.duty - m * lo.temp` evaluated over the exact rationals, whenever
the preconditions of the interpolation loop hold (duty non-decreasing, strictly
increasing temperatures, `temp` at or above the low anchor). -/
theorem interpDuty_eq_ceil (lo hi : FanCurvePoint) (temp : Nat)
    (hd : lo.duty ≤ hi.duty) (ht : lo.temp < hi.temp) (h1 : lo.temp ≤ temp) :
    (interpDuty lo hi temp : ℤ)
      = ⌈(((hi.duty : ℚ) - (lo.duty : ℚ)) / ((hi.temp : ℚ) - (lo.temp : ℚ))) * (temp : ℚ)
          + ((lo.duty : ℚ)
            - (((hi.duty : ℚ) - (lo.duty : ℚ)) / ((hi.temp : ℚ) - (lo.temp : ℚ)))
              * (lo.temp : ℚ))⌉ := by
  have hΔ : 0 < hi.temp - lo.temp := Nat.sub_pos_of_lt ht
  set Δn : Nat := hi.temp - lo.temp with hΔdef
  set Nn : Nat := lo.duty * Δn + (hi.duty - lo.duty) * (temp - lo.temp) with hNdef
  have hΔq0 : ((hi.temp : ℚ) - (lo.temp : ℚ)) ≠ 0 := by
    have : (lo.temp : ℚ) < (hi.temp : ℚ) := by exact_mod_cast ht
    linarith
  have hΔqpos : (0 : ℚ) < (Δn : ℚ) := by exact_mod_cast hΔ
  have harg : (((hi.duty : ℚ) - (lo.duty : ℚ)) / ((hi.temp : ℚ) - (lo.temp : ℚ))) * (temp : ℚ)
      + ((lo.duty : ℚ)
        - (((hi.duty : ℚ) - (lo.duty : ℚ)) / ((hi.temp : ℚ) - (lo.temp : ℚ))) * (lo.temp : ℚ))
      = (Nn : ℚ) / (Δn : ℚ) := by
    rw [hNdef, hΔdef]
    push_cast [Nat.cast_sub hd, Nat.cast_sub h1, Nat.cast_sub ht.le]
    field_simp
    ring
  rw [harg]
  set k : Nat := (Nn + (Δn - 1)) / Δn with hkdef
  have hinterp : interpDuty lo hi temp = k := rfl
  have hk1 : k * Δn ≤ Nn + (Δn - 1) := Nat.div_mul_le_self _ _
  have hk2 : Nn + (Δn - 1) < (k + 1) * Δn := by
    exact (Nat.div_lt_iff_lt_mul hΔ).mp (Nat.lt_succ_self k)
  rw [Nat.add_mul, Nat.one_mul] at hk2
  have hb1 : Nn ≤ k * Δn := by omega
  have hb2 : k * Δn < Nn + Δn := by omega
  rw [hinterp]
  have hceil_le : ⌈(Nn : ℚ) / (Δn : ℚ)⌉ ≤ (k : ℤ) := by
    refine Int.ceil_le.mpr ?_
    rw [div_le_iff₀ hΔqpos]
    exact_mod_cast hb1
  have hlt : ((k : ℤ) : ℚ) - 1 < (Nn : ℚ) / (Δn : ℚ) := by
    rw [sub_lt_iff_lt_add]
    rw [show (Nn : ℚ) / (Δn : ℚ) + 1 = ((Nn : ℚ) + Δn) / Δn from by field_simp]
    rw [lt_div_iff₀ hΔqpos]
    exact_mod_cast hb2
  have hle_ceil : (k : ℤ) - 1 < ⌈(Nn : ℚ) / (Δn : ℚ)⌉ := by
    refine Int.lt_ceil.mpr ?_
    push_cast
    push_cast at hlt
    exact hlt
  omega

/-!  Claim theorems. -/

/-- C1.  When a successfully opened device session is destroyed, its
`Drop` implementation issues exactly one restore-automatic-policy command
per managed fan, covering every fan index `0..num_fans-1` in increasing
index order (the outcome lists the commanded indices in issue order); and
if any restore command fails, the drop panics -- the outcome type of the
`Drop` has no recoverable-error alternative at all. -/
theorem c1_drop_restores_every_fan (numFans : Nat) (setDefaultOk : Nat → Bool) :
    ((∀ i, i < numFans → setDefaultOk i = true) →
      gpu_manager_drop numFans setDefaultOk = .ok (List.range numFans))
    ∧ ((∃ i, i < numFans ∧ setDefaultOk i = false) →
      ∃ restored msg, gpu_manager_drop numFans setDefaultOk = .panicked restored msg) := by
  constructor
  · intro h
    exact restore_auto_policy_all_ok setDefaultOk (List.range numFans)
      fun i hi => h i (List.mem_range.mp hi)
  · rintro ⟨i, hi, hfail⟩
    exact restore_auto_policy_fail setDefaultOk (List.range numFans)
      ⟨i, List.mem_range.mpr hi, hfail⟩

/-- C1 witness: a two-fan session with a healthy device restores fans 0
then 1; one with a device that rejects the command on fan 1 panics. -/
theorem c1_drop_restores_every_fan_witness :
    gpu_manager_drop 2 (fun _ => true) = .ok [0, 1]
    ∧ ∃ restored msg,
        gpu_manager_drop 2 (fun i => i == 0) = .panicked restored msg := by
  constructor
  · have h := (c1_drop_restores_every_fan 2 (fun _ => true)).1 (by decide)
    simpa using h
  · exact (c1_drop_restores_every_fan 2 (fun i => i == 0)).2 ⟨1, by decide, by decide⟩

/-- C4.  In the current (tjaeled) revision the session stores its NVML
handle without any mutex and `read_state` issues its device calls
directly, so the snapshot read is not serialized through any
mutual-exclusion boundary -- two such operations can have device calls in
flight simultaneously.  The `read_state` of the earlier revision took the
session lock around its device calls. -/
theorem c4_tjaeled_read_state_unlocked :
    allCallsLocked tjaeled_read_state_trace = false
    ∧ allCallsLocked locked_read_state_trace = true := by
  decide

/-- C3.  One control step: a temperature inside the saturating hysteresis
band `[previous - h, previous + h]` commands nothing and returns the
previous temperature; a temperature above 255 fails instead of clamping;
otherwise the duty for the newly observed temperature is looked up in the
curve table, commanded to every fan index, and the newly observed
temperature is returned. -/
theorem c3_hysteresis_step (hysteresis : Nat) (fanCurve : FanCurveMap)
    (numFans : Nat) (dev : StepDevice) (previousTemp newTemp : Nat)
    (hread : dev.readTemp = .ok newTemp) :
    (saturatingSub previousTemp hysteresis ≤ newTemp
        ∧ newTemp ≤ saturatingAdd previousTemp hysteresis →
      set_duty_with_curve hysteresis fanCurve numFans dev previousTemp
        = (.ok previousTemp, []))
    ∧ (¬ (saturatingSub previousTemp hysteresis ≤ newTemp
        ∧ newTemp ≤ saturatingAdd previousTemp hysteresis) → 255 < newTemp →
      set_duty_with_curve hysteresis fanCurve numFans dev previousTemp
        = (.error "Your device somehow is warmer than 255C", []))
    ∧ (∀ targetDuty,
        ¬ (saturatingSub previousTemp hysteresis ≤ newTemp
          ∧ newTemp ≤ saturatingAdd previousTemp hysteresis) →
        ¬ 255 < newTemp → mapLookup fanCurve newTemp = some targetDuty →
        targetDuty ≤ 100 → (∀ i, i < numFans → dev.setFanOk i = true) →
      set_duty_with_curve hysteresis fanCurve numFans dev previousTemp
        = (.ok newTemp, (List.range numFans).map fun i => (i, targetDuty))) := by
  refine ⟨?_, ?_, ?_⟩
  · intro hband
    simp only [set_duty_with_curve, hread, if_pos hband]
  · intro hband hhot
    simp only [set_duty_with_curve, hread, if_neg hband, if_pos hhot]
  · intro targetDuty hband hhot hlook hsane hok
    have hfans := set_fan_speeds_all_ok dev targetDuty (List.range numFans)
      fun i hi => hok i (List.mem_range.mp hi)
    simp only [set_duty_with_curve, hread, if_neg hband, if_neg hhot, hlook,
      if_neg (not_not_intro hsane), hfans]
    rfl

/-- C3 witness: with `last_temp = 50` and `hysteresis = 3`, an observed 52
changes nothing; an observed 300 is rejected; an observed 54 on a healthy
two-fan device commits duty 40 to fans 0 and 1 and returns 54. -/
theorem c3_hysteresis_step_witness :
    set_duty_with_curve 3 [(54, 40)] 2 ⟨.ok 52, fun _ => true⟩ 50 = (.ok 50, [])
    ∧ set_duty_with_curve 3 [] 2 ⟨.ok 300, fun _ => true⟩ 50
        = (.error "Your device somehow is warmer than 255C", [])
    ∧ set_duty_with_curve 3 [(54, 40)] 2 ⟨.ok 54, fun _ => true⟩ 50
        = (.ok 54, [(0, 40), (1, 40)]) := by
  refine ⟨?_, ?_, ?_⟩
  · exact (c3_hysteresis_step 3 [(54, 40)] 2 ⟨.ok 52, fun _ => true⟩ 50 52 rfl).1
      (by decide)
  · exact (c3_hysteresis_step 3 [] 2 ⟨.ok 300, fun _ => true⟩ 50 300 rfl).2.1
      (by decide) (by decide)
  · have h := (c3_hysteresis_step 3 [(54, 40)] 2 ⟨.ok 54, fun _ => true⟩ 50 54 rfl).2.2
      40 (by decide) (by decide) (by decide) (by decide) (fun i _ => rfl)
    simpa using h

/-- Splitting `0..n` at an interior index. -/
theorem range_split_at (i n : Nat) (h : i < n) :
    List.range n
      = List.range i ++ i :: ((List.range (n - i - 1)).map fun j => i + (j + 1)) := by
  have h1 : n = i + (n - i) := by omega
  have h2 : n - i = (n - i - 1) + 1 := by omega
  rw [h1, List.range_add, h2, List.range_succ_eq_map]
  simp [List.map_cons, Function.comp]

/-- C10.  When a committing control step fails while applying the target
duty at fan index `i`, the duty has been commanded to exactly the indices
below `i` (in order, and nothing is rolled back), no index at or above `i`
was commanded, the step returns the error, and the control loop keeps its
previous last-acted-upon temperature (updating it only after a fully
successful step) while cancelling the server. -/
theorem c10_partial_commit_keeps_temp (hysteresis : Nat) (fanCurve : FanCurveMap)
    (numFans : Nat) (dev : StepDevice) (previousTemp newTemp targetDuty i : Nat)
    (hread : dev.readTemp = .ok newTemp)
    (hband : ¬ (saturatingSub previousTemp hysteresis ≤ newTemp
      ∧ newTemp ≤ saturatingAdd previousTemp hysteresis))
    (hhot : ¬ 255 < newTemp)
    (hlook : mapLookup fanCurve newTemp = some targetDuty)
    (hsane : targetDuty ≤ 100)
    (hpre : ∀ j, j < i → dev.setFanOk j = true)
    (hfail : dev.setFanOk i = false)
    (hi : i < numFans) :
    set_duty_with_curve hysteresis fanCurve numFans dev previousTemp
      = (.error "Failed to set fan speed", (List.range i).map fun j => (j, targetDuty))
    ∧ fan_control_step previousTemp
        (set_duty_with_curve hysteresis fanCurve numFans dev previousTemp).1
      = (previousTemp, true) := by
  have hsplit := range_split_at i numFans hi
  have hloop := set_fan_speeds_first_fail dev targetDuty (List.range i) i
    ((List.range (numFans - i - 1)).map fun j => i + (j + 1))
    (fun j hj => hpre j (List.mem_range.mp hj)) hfail
  have hstep : set_duty_with_curve hysteresis fanCurve numFans dev previousTemp
      = (.error "Failed to set fan speed", (List.range i).map fun j => (j, targetDuty)) := by
    simp only [set_duty_with_curve, hread, if_neg hband, if_neg hhot, hlook,
      if_neg (not_not_intro hsane), hsplit, hloop]
    rfl
  exact ⟨hstep, by rw [hstep]; rfl⟩

/-- C10 witness: a three-fan device that rejects the command on fan 2 (at
observed temperature 60, previous 50, hysteresis 3, duty 70) commands fans
0 and 1 only, errors, and the loop state keeps temperature 50 while
cancelling. -/
theorem c10_partial_commit_keeps_temp_witness :
    set_duty_with_curve 3 [(60, 70)] 3 ⟨.ok 60, fun j => j < 2⟩ 50
      = (.error "Failed to set fan speed", [(0, 70), (1, 70)])
    ∧ fan_control_step 50
        (set_duty_with_curve 3 [(60, 70)] 3 ⟨.ok 60, fun j => j < 2⟩ 50).1
      = (50, true) := by
  have h := c10_partial_commit_keeps_temp 3 [(60, 70)] 3 ⟨.ok 60, fun j => j < 2⟩
    50 60 70 2 rfl (by decide) (by decide) (by decide) (by decide)
    (by decide) (by decide) (by decide)
  exact ⟨by simpa using h.1, h.2⟩

/-- C9.  The request handler: anything but `GET /gpustate` gets 404 with
an empty body; `GET /gpustate` with a successful snapshot read gets 200
with the JSON body; `GET /gpustate` with a failed read gets 500 with a
body that starts with at least one numbered line (the `[0]` line); and the
accept loop never reacts to a connection outcome by stopping the server. -/
theorem c9_request_handling (method path : String)
    (readState : Except AnyhowError String) :
    (¬ (method = "GET" ∧ path = "/gpustate") →
      handle_http_request method path readState = (404, ""))
    ∧ (∀ json, readState = .ok json →
      handle_http_request "GET" "/gpustate" readState = (200, json))
    ∧ (∀ err, readState = .error err →
      (handle_http_request "GET" "/gpustate" readState).1 = 500
      ∧ ∃ rest, (handle_http_request "GET" "/gpustate" readState).2
          = "Error chain:\n[0]: " ++ rest)
    ∧ (∀ accepted, unix_socket_server_step accepted ≠ .stopServing) := by
  refine ⟨?_, ?_, ?_, ?_⟩
  · intro hmiss
    simp only [handle_http_request, if_pos hmiss]
  · intro json hok
    simp [handle_http_request, hok]
  · intro err herr
    subst herr
    constructor
    · simp [handle_http_request]
    · obtain ⟨rest, hrest⟩ := error_chain_body_head_line err
      exact ⟨outermostMsg err ++ rest, by simp [handle_http_request, hrest]⟩
  · intro accepted
    cases accepted <;> simp [unix_socket_server_step]

/-- C9 witness: a `POST` gets 404 with empty body, a successful read gets
200 with its JSON, a failed read gets 500 with a leading numbered line,
and an accepted connection never stops the server. -/
theorem c9_request_handling_witness :
    handle_http_request "POST" "/gpustate" (.ok "s") = (404, "")
    ∧ handle_http_request "GET" "/gpustate" (.ok "s") = (200, "s")
    ∧ ((handle_http_request "GET" "/gpustate"
          (.error (.context "Failed to read GPU state" (.base "NVML error")))).1 = 500
      ∧ ∃ rest, (handle_http_request "GET" "/gpustate"
          (.error (.context "Failed to read GPU state" (.base "NVML error")))).2
            = "Error chain:\n[0]: " ++ rest)
    ∧ unix_socket_server_step (.ok ()) ≠ .stopServing :=
  ⟨(c9_request_handling "POST" "/gpustate" (.ok "s")).1 (by decide),
   (c9_request_handling "GET" "/gpustate" (.ok "s")).2.1 "s" rfl,
   (c9_request_handling "GET" "/gpustate"
      (.error (.context "Failed to read GPU state" (.base "NVML error")))).2.2.1
      (.context "Failed to read GPU state" (.base "NVML error")) rfl,
   (c9_request_handling "GET" "/gpustate" (.ok "s")).2.2.2 (.ok ())⟩

/-- C6 counterexample: for a read failure whose innermost cause is the
NVML error and whose outermost context layer is the read-state sentence,
the rendered body numbers the OUTERMOST cause as `[0]`, not the innermost
one -- the body differs from the innermost-first rendering the claim
describes. -/
theorem c6_counterexample_index0_not_innermost :
    error_chain_body (.context "Failed to read GPU state" (.base "NVML error"))
      = "Error chain:\n[0]: Failed to read GPU state\n[1]: NVML error\n"
    ∧ innermostCause (.context "Failed to read GPU state" (.base "NVML error"))
      = "NVML error"
    ∧ "Error chain:\n[0]: Failed to read GPU state\n[1]: NVML error\n"
      ≠ "Error chain:\n[0]: NVML error\n[1]: Failed to read GPU state\n" := by
  refine ⟨by decide, rfl, by decide⟩

/-- C6 amended: the 500 body enumerates the complete cause chain as
numbered lines with index 0 being the OUTERMOST cause (the chain is
printed outermost to innermost, the innermost cause coming last). -/
theorem c6_amended_index0_outermost (err : AnyhowError) :
    (∃ rest, error_chain_body err
      = "Error chain:\n[0]: " ++ (outermostMsg err ++ rest))
    ∧ err.chain.head? = some (outermostMsg err)
    ∧ err.chain.getLast? = some (innermostCause err) :=
  ⟨error_chain_body_head_line err, chain_head err, chain_getLast err⟩

set_option maxRecDepth 20000

/-- C5 counterexample: a configured fan curve listing temperature 50 twice
(duties 30 then 60) is NOT rejected -- config loading and fan-curve
compilation both succeed, and the compiled table silently carries the
later-listed duty (60) for temperature 50. -/
theorem c5_counterexample_duplicate_temp_accepted :
    (match load_control_config 1 2 [(50, 30), (50, 60), (20, 10), (80, 80)] with
      | .ok cfg => mapLookup cfg.fan_curve 50 == some 60
      | .error _ => false) = true := by
  have hmap : buildFanCurveMap [(50, 30), (50, 60), (20, 10), (80, 80)]
      = [(50, 60), (20, 10), (80, 80)] := by decide
  have hnf : new_from_file 1 2 [(50, 30), (50, 60), (20, 10), (80, 80)]
      = .ok ⟨1, 2, [(50, 60), (20, 10), (80, 80)]⟩ := by
    unfold new_from_file
    rw [hmap]
    norm_num
  unfold load_control_config
  rw [hnf]
  decide

/-- C5 amended: two anchors at the same configured temperature are not a
configuration error; the serde deserialization of the fan-curve list
collapses them silently, each temperature ending up mapped to the duty of
the last pair that listed it, and loading proceeds on the collapsed set.
For the duplicated listing of temperature 50 the surviving duty is the
later one, 60. -/
theorem c5_amended_last_listed_duty_wins :
    (∀ (pairs : List (Nat × Nat)) (t : Nat),
      mapLookup (buildFanCurveMap pairs) t = lastDuty pairs t)
    ∧ mapLookup (buildFanCurveMap [(50, 30), (50, 60), (20, 10), (80, 80)]) 50
      = some 60 :=
  ⟨buildFanCurveMap_last_wins, by decide⟩

/-- C7.  Whenever some pair of consecutive temperature-sorted anchors has
a strictly decreasing duty, fan-curve compilation fails with an error --
the curve is never silently corrected. -/
theorem c7_decreasing_duty_rejected (fanCurve : FanCurveMap)
    (hdec : ∃ pr ∈ sortedAnchorPairs fanCurve, pr.2.duty < pr.1.duty) :
    ∃ e, precompute_fan_curve fanCurve = .error e := by
  obtain ⟨pr, hmem, hlt⟩ := hdec
  unfold sortedAnchorPairs at hmem
  cases hA : sortByTemp (fanCurve.map fun p => ⟨p.1, p.2⟩) with
  | nil => rw [hA] at hmem; simp at hmem
  | cons a0 rest =>
    rw [hA] at hmem
    unfold precompute_fan_curve
    rw [hA]
    dsimp only
    cases hF1 : (rangeCO 0 a0.temp).foldlM (fun acc t => tryInsert acc t a0.duty) fanCurve with
    | error e => exact ⟨e, rfl⟩
    | ok m1 =>
      have hstep : ∀ c, ∃ e, drawSegment c pr = .error e := fun c =>
        ⟨"Fan duty must not decrease with temperature",
          by simp [drawSegment, if_neg (not_le.mpr hlt)]⟩
      obtain ⟨e2, hF2⟩ := foldlM_except_error ((a0 :: rest).zip (a0 :: rest).tail)
        drawSegment pr hmem hstep m1
      refine ⟨e2, ?_⟩
      show (((a0 :: rest).zip (a0 :: rest).tail).foldlM drawSegment m1 >>= _) = _
      rw [hF2]
      rfl

/-- C7 witness: the anchor set `{(10,50),(20,30),(30,40)}` has the sorted
consecutive pair `(10,50),(20,30)` with decreasing duty, and its
compilation fails. -/
theorem c7_decreasing_duty_rejected_witness :
    ∃ e, precompute_fan_curve [(10, 50), (20, 30), (30, 40)] = .error e :=
  c7_decreasing_duty_rejected [(10, 50), (20, 30), (30, 40)] (by decide)

/-- C8.  Compiling `{(20,20),(50,50),(80,100)}` gives `table[t] = 20` for
every `t ≤ 20` (flat below the lowest anchor), `table[35] = 35`,
`table[50] = 50`, `table[80] = 100`, and `table[t] = 100` for every
`t` in `81..=255` (flat above the highest anchor); and interior points are
computed as `ceil(m * temp + b)` over the exact slope/intercept, which is
what `interpDuty` implements. -/
theorem c8_concrete_table_and_ceil :
    (match precompute_fan_curve [(20, 20), (50, 50), (80, 100)] with
      | .ok tbl =>
        ((List.range 21).all fun t => mapLookup tbl t == some 20)
        && (mapLookup tbl 35 == some 35)
        && (mapLookup tbl 50 == some 50)
        && (mapLookup tbl 80 == some 100)
        && (((List.range 175).map fun j => 81 + j).all fun t =>
              mapLookup tbl t == some 100)
      | .error _ => false) = true
    ∧ ∀ (lo hi : FanCurvePoint) (temp : Nat),
        lo.duty ≤ hi.duty → lo.temp < hi.temp → lo.temp ≤ temp →
        (interpDuty lo hi temp : ℤ)
          = ⌈(((hi.duty : ℚ) - (lo.duty : ℚ)) / ((hi.temp : ℚ) - (lo.temp : ℚ)))
                * (temp : ℚ)
              + ((lo.duty : ℚ)
                - (((hi.duty : ℚ) - (lo.duty : ℚ))
                    / ((hi.temp : ℚ) - (lo.temp : ℚ))) * (lo.temp : ℚ))⌉ :=
  ⟨by decide, interpDuty_eq_ceil⟩

/-- C8 witness: the interpolated entry at temperature 35 between anchors
`(20,20)` and `(50,50)` is the ceiling of the interpolated rational
value. -/
theorem c8_concrete_table_and_ceil_witness :
    (interpDuty ⟨20, 20⟩ ⟨50, 50⟩ 35 : ℤ)
      = ⌈(((50 : ℚ) - (20 : ℚ)) / ((50 : ℚ) - (20 : ℚ))) * (35 : ℚ)
          + ((20 : ℚ)
            - (((50 : ℚ) - (20 : ℚ)) / ((50 : ℚ) - (20 : ℚ))) * (20 : ℚ))⌉ :=
  c8_concrete_table_and_ceil.2 ⟨20, 20⟩ ⟨50, 50⟩ 35 (by decide) (by decide) (by decide)

/-- C2.  Counter-evidence for "the compiler succeeds on every valid anchor
set": the valid anchor set `{(0,0),(1,1),(255,100)}` (distinct
temperatures, duties at most 100, non-decreasing) makes
`precompute_fan_curve` fail.  The tail flat-extrapolation range
`(last_point.temp + 1)..=u8::MAX` overflows `u8` when the top anchor sits
at 255: debug builds panic on the addition; release builds wrap the start
to 0, so the first `try_insert(0, ..)` of the loop hits the already-present
temperature 0 and errors. -/
theorem c2_top_anchor_255_fails :
    (match precompute_fan_curve [(0, 0), (1, 1), (255, 100)] with
      | .error e => e == "Found curve point which should not yet be present"
      | .ok _ => false) = true := by
  decide
